import Mathlib

/-!
Verification of roslibjs protocol-core behaviors against a shallow embedding
of the source. Each section embeds one source unit; theorems at the end
settle the spec claims.
-/

namespace Roslib

/-! Embedding of src/src/actionlib/SimpleActionServer.js.

The server state is the triple of mutable fields (currentGoal, nextGoal,
statusMessage.status_list); emitted events and published result messages are
returned explicitly. Goal payloads and result payloads are opaque strings. -/

structure RosTime where
  secs : Nat
  nsecs : Nat
deriving DecidableEq, Repr

structure GoalID where
  id : String
  stamp : RosTime
deriving DecidableEq, Repr

structure GoalMessage where
  goal_id : GoalID
  goal : String
deriving DecidableEq, Repr

structure GoalStatus where
  goal_id : GoalID
  status : Nat
deriving DecidableEq, Repr

structure ResultMessage where
  status : GoalStatus
  result : String
deriving DecidableEq, Repr

inductive SAEvent where
  | goalEvent (g : String)
  | cancelEvent
deriving DecidableEq, Repr

structure ServerState where
  currentGoal : Option GoalMessage
  nextGoal : Option GoalMessage
  status_list : List GoalStatus
deriving DecidableEq, Repr

def initialServer : ServerState :=
  { currentGoal := none, nextGoal := none, status_list := [] }

/-- SimpleActionServer.js lines 79-90, the goalListener.subscribe handler:
if a goal is current, stage the new goal as nextGoal and emit cancel;
otherwise set the status list to the single active entry, make the goal
current and emit the goal event. -/
def handleGoal (st : ServerState) (goalMessage : GoalMessage) :
    ServerState × List SAEvent :=
  match st.currentGoal with
  | some _ =>
    ({ st with nextGoal := some goalMessage }, [SAEvent.cancelEvent])
  | none =>
    ({ st with
        status_list := [{ goal_id := goalMessage.goal_id, status := 1 }],
        currentGoal := some goalMessage },
     [SAEvent.goalEvent goalMessage.goal])

/-- SimpleActionServer.js lines 94-104: returns t1 < t2 comparing secs first,
then nsecs. -/
def isEarlier (t1 t2 : RosTime) : Bool :=
  if t1.secs > t2.secs then false
  else if t1.secs < t2.secs then true
  else if t1.nsecs < t2.nsecs then true
  else false

/-- JS truthiness test `g && msg.id === g.goal_id.id` for an optional goal. -/
def idMatches (g : Option GoalMessage) (i : String) : Bool :=
  match g with
  | some gm => i = gm.goal_id.id
  | none => false

/-- JS truthiness test `g && isEarlier(g.goal_id.stamp, t)` for an optional goal. -/
def stampEarlier (g : Option GoalMessage) (t : RosTime) : Bool :=
  match g with
  | some gm => isEarlier gm.goal_id.stamp t
  | none => false

/-- SimpleActionServer.js line 113, the cancel-all test. The source tests
stamp.secs twice (`cancelMessage.stamp.secs === 0 && cancelMessage.stamp.secs
=== 0`), so nsecs is never examined; this is kept verbatim. -/
def cancelAllCond (m : GoalID) : Bool :=
  m.stamp.secs = 0 && m.stamp.secs = 0 && m.id = ""

/-- SimpleActionServer.js lines 110-135, the cancelListener.subscribe handler.
The sequential field mutations of the source are threaded as st1, st2; emitted
cancel events are collected in order. -/
def handleCancel (st : ServerState) (m : GoalID) : ServerState × List SAEvent :=
  if cancelAllCond m then
    let st1 := { st with nextGoal := none }
    if st1.currentGoal.isSome then (st1, [SAEvent.cancelEvent]) else (st1, [])
  else
    let evA : List SAEvent :=
      if idMatches st.currentGoal m.id then [SAEvent.cancelEvent] else []
    let st1 : ServerState :=
      if idMatches st.currentGoal m.id then st
      else if idMatches st.nextGoal m.id then { st with nextGoal := none }
      else st
    let st2 : ServerState :=
      if stampEarlier st1.nextGoal m.stamp then { st1 with nextGoal := none }
      else st1
    let evB : List SAEvent :=
      if stampEarlier st2.currentGoal m.stamp then [SAEvent.cancelEvent] else []
    (st2, evA ++ evB)

/-- SimpleActionServer.js lines 151-168, setSucceeded: publish a result
message carrying the current goal id with status 3, clear the status list,
then promote nextGoal (emitting a goal event) or go idle. Returns none when
currentGoal is null, where the source would fault reading goal_id of null. -/
def setSucceeded (st : ServerState) (result2 : String) :
    Option (ServerState × List SAEvent × ResultMessage) :=
  match st.currentGoal with
  | none => none
  | some cg =>
    let resultMessage : ResultMessage :=
      { status := { goal_id := cg.goal_id, status := 3 }, result := result2 }
    let st1 := { st with status_list := ([] : List GoalStatus) }
    match st1.nextGoal with
    | some ng =>
      some ({ st1 with currentGoal := some ng, nextGoal := none },
            [SAEvent.goalEvent ng.goal], resultMessage)
    | none =>
      some ({ st1 with currentGoal := none }, [], resultMessage)

/-- The preemption scenario of the spec: goal A accepted, goal B staged while
A is active, then setSucceeded. -/
def preemptScenario (A B : GoalMessage) (res : String) :
    Option (ServerState × List SAEvent × ResultMessage) :=
  setSucceeded (handleGoal (handleGoal initialServer A).1 B).1 res

/-! Embedding of Ros.callOnConnection (src/src/core/Ros.js lines 128-144) and
the connection transition.

callOnConnection serializes the message; if not connected it registers a
one-shot listener for the connection event that will send it, else it sends
immediately. Messages are opaque strings; the wire is the list of frames
handed to the transport, in order. -/

structure ConnState where
  isConnected : Bool
  /-- The once-listeners registered for the connection event, in registration
  order; each holds one serialized message to send. -/
  onceConnectionQueue : List String
  wire : List String
deriving DecidableEq, Repr

def initialConn : ConnState :=
  { isConnected := false, onceConnectionQueue := [], wire := [] }

/-- Ros.js lines 128-144: send now when connected, else register a once
listener on the connection event that sends the message. -/
def callOnConnection (st : ConnState) (message : String) : ConnState :=
  if st.isConnected then { st with wire := st.wire ++ [message] }
  else { st with onceConnectionQueue := st.onceConnectionQueue ++ [message] }

/-- Modelled from the spec: the socket adapter (not under src/) sets
isConnected and emits the connection event on transport open; once-listeners
fire exactly once each, in registration order, and are removed. Flushing thus
appends the queued messages to the wire in submission order. -/
def handleTransportOpen (st : ConnState) : ConnState :=
  { isConnected := true, onceConnectionQueue := [],
    wire := st.wire ++ st.onceConnectionQueue }

inductive ConnEvent where
  | call (m : String)
  | transportOpen
deriving DecidableEq, Repr

def runConn (st : ConnState) : List ConnEvent → ConnState
  | [] => st
  | ConnEvent.call m :: rest => runConn (callOnConnection st m) rest
  | ConnEvent.transportOpen :: rest => runConn (handleTransportOpen st) rest

/-! Embedding of Service.callService (src/unnamed/part_001, the Service class)
and correlation-id response dispatch.

The Ros connection keeps a monotone idCounter and a once-listener registry
keyed by event name. callService registers at most one listener under the
fresh correlation id; a service response is dispatched (modelled from the
spec: per-correlation-id one-shot events keyed by the response id, since the
socket adapter is not under src/) to every once-listener under that key, which
is removed. -/

structure SvcHandler where
  hasCallback : Bool
  hasFailedCallback : Bool
deriving DecidableEq, Repr

structure RosConn where
  idCounter : Nat
  listeners : List (String × SvcHandler)
deriving DecidableEq, Repr

structure SvcState where
  name : String
  isAdvertised : Bool
deriving DecidableEq, Repr

structure CallOp where
  id : String
  service : String
deriving DecidableEq, Repr

def serviceCallIdOf (name : String) (n : Nat) : String :=
  "call_service:" ++ name ++ ":" ++ toString n

/-- Service.callService (part_001 lines 126-153): no-op when advertised; else
increment the id counter, build the correlation id, register a once listener
when some callback was supplied, and send the call operation. -/
def callService (svc : SvcState) (ros : RosConn) (hasCb hasFcb : Bool) :
    RosConn × List CallOp :=
  if svc.isAdvertised then (ros, [])
  else
    let counter := ros.idCounter + 1
    let callId := serviceCallIdOf svc.name counter
    let ros1 : RosConn := { ros with idCounter := counter }
    let ros2 : RosConn :=
      if hasCb || hasFcb then
        { ros1 with listeners := ros1.listeners ++ [(callId, ⟨hasCb, hasFcb⟩)] }
      else ros1
    (ros2, [{ id := callId, service := svc.name }])

structure SvcResponse where
  id : String
  /-- none models an absent result field of the response envelope. -/
  result : Option Bool
  values : String
deriving DecidableEq, Repr

inductive Invocation where
  | success (values : String)
  | failure (values : String)
deriving DecidableEq, Repr

/-- The listener body of callService (part_001 lines 134-142): result present
and false routes to the failure callback when supplied (else nothing);
otherwise to the success callback when supplied. -/
def respRoute (h : SvcHandler) (m : SvcResponse) : List Invocation :=
  if m.result = some false then
    if h.hasFailedCallback then [Invocation.failure m.values] else []
  else
    if h.hasCallback then [Invocation.success m.values] else []

/-- Modelled from the spec: the socket adapter (not under src/) emits each
service response under its correlation id; all once-listeners under that key
fire once, in registration order, and are removed. -/
def dispatchResponse (ros : RosConn) (m : SvcResponse) :
    RosConn × List Invocation :=
  let matched := ros.listeners.filter (fun p => p.1 = m.id)
  ({ ros with listeners := ros.listeners.filter (fun p => ¬ p.1 = m.id) },
   matched.flatMap (fun p => respRoute p.2 m))

/-! Embedding of TFClient (second unit of src/src/math/Vector3.js):
subscribe (lines 238-259), unsubscribe (lines 267-282) and updateGoal
(lines 173-207).

frameInfos is a JS object: an insertion-ordered string-keyed map; its keys
list is what Object.keys returns in updateGoal. Callbacks are opaque ids
(Nat); a cached transform is an opaque Nat. updateGoal sends exactly one
upstream re-aggregation request in either compatibility mode (a goal
submission or a service call), recorded here as its source_frames list, and
resets republisherUpdateRequested. pendingTimers counts the setTimeout timers
scheduled for updateGoal that have not yet fired. -/

structure FrameInfo where
  transform : Option Nat
  cbs : List Nat
deriving DecidableEq, Repr

structure TFState where
  frameInfos : List (String × FrameInfo)
  republisherUpdateRequested : Bool
  pendingTimers : Nat
  requests : List (List String)
deriving DecidableEq, Repr

def initialTF : TFState :=
  { frameInfos := [], republisherUpdateRequested := false,
    pendingTimers := 0, requests := [] }

/-- Leading-slash stripping shared by subscribe and unsubscribe
(`if (frameID[0] === '/') frameID = frameID.substring(1)`). -/
def stripSlash (s : String) : String :=
  match s.data with
  | [] => s
  | c :: rest => if c = '/' then String.mk rest else s

def lookupFrame (k : String) : List (String × FrameInfo) → Option FrameInfo
  | [] => none
  | (k2, v) :: rest => if k2 = k then some v else lookupFrame k rest

/-- JS object property assignment: overwrite in place when the key exists,
else append, preserving insertion order. -/
def setFrame (k : String) (v : FrameInfo) :
    List (String × FrameInfo) → List (String × FrameInfo)
  | [] => [(k, v)]
  | (k2, v2) :: rest =>
    if k2 = k then (k2, v) :: rest else (k2, v2) :: setFrame k v rest

/-- JS delete of an object property. -/
def removeFrame (k : String) :
    List (String × FrameInfo) → List (String × FrameInfo)
  | [] => []
  | (k2, v2) :: rest =>
    if k2 = k then rest else (k2, v2) :: removeFrame k rest

/-- Object.keys of frameInfos, in insertion order. -/
def frameKeys (fs : List (String × FrameInfo)) : List String :=
  fs.map Prod.fst

/-- `this.frameInfos[frameID].cbs.push(callback)` at the end of subscribe. -/
def pushCb (st : TFState) (frameID : String) (callback : Nat) : TFState :=
  match lookupFrame frameID st.frameInfos with
  | some info =>
    { st with frameInfos :=
        setFrame frameID { info with cbs := info.cbs ++ [callback] } st.frameInfos }
  | none => st

/-- TFClient.subscribe (lines 238-259): strip the leading slash; for an
unwatched frame create an entry with an empty callback list and, unless an
update is already requested, schedule one updateGoal timer and set the flag;
for a watched frame with a cached transform invoke the new callback
immediately with it. Finally push the callback onto the frame entry. The
second component lists the immediate callback invocations (callback id,
transform), made before the push. -/
def subscribe (st : TFState) (frameID0 : String) (callback : Nat) :
    TFState × List (Nat × Nat) :=
  let frameID := stripSlash frameID0
  match lookupFrame frameID st.frameInfos with
  | none =>
    let st1 := { st with
      frameInfos := st.frameInfos ++ [(frameID, { transform := none, cbs := [] })] }
    let st2 :=
      if st1.republisherUpdateRequested then st1
      else { st1 with pendingTimers := st1.pendingTimers + 1,
                      republisherUpdateRequested := true }
    (pushCb st2 frameID callback, [])
  | some info =>
    let calls : List (Nat × Nat) :=
      match info.transform with
      | some t => [(callback, t)]
      | none => []
    (pushCb st frameID callback, calls)

inductive JsError where
  | referenceError
deriving DecidableEq, Repr

/-- TFClient.unsubscribe (lines 267-282): strip the leading slash; the for
loop splices every occurrence of the callback out of the entry list (iterating
from the end, so the survivors keep their order); the trailing
`if (!callback || cbs.length === 0) delete this.frameInfos[frameID]` reads
`cbs`, which was declared with `let` in the for-loop head and is out of scope
there. So with no callback argument the short-circuit deletes the entry, but
with a callback the function raises a ReferenceError after the splices and
never reaches the delete. The error, when raised, is returned beside the state
as mutated so far. -/
def unsubscribe (st : TFState) (frameID0 : String) (callback : Option Nat) :
    TFState × Option JsError :=
  let frameID := stripSlash frameID0
  let st1 : TFState :=
    match lookupFrame frameID st.frameInfos, callback with
    | some info, some c =>
      let newInfo : FrameInfo := { info with cbs := info.cbs.filter (fun x => ¬ x = c) }
      { st with frameInfos := setFrame frameID newInfo st.frameInfos }
    | _, _ => st
  match callback with
  | none => ({ st1 with frameInfos := removeFrame frameID st1.frameInfos }, none)
  | some _ => (st1, some JsError.referenceError)

/-- TFClient.updateGoal (lines 173-207): build the goal message whose
source_frames is Object.keys(frameInfos) and submit it upstream — in groovy
compatibility mode as an action goal (cancelling the previous one), otherwise
as one service call; either way exactly one re-aggregation request goes out.
Then reset republisherUpdateRequested. -/
def updateGoal (st : TFState) : TFState :=
  { st with requests := st.requests ++ [frameKeys st.frameInfos],
            republisherUpdateRequested := false }

/-- One scheduled setTimeout for updateGoal fires. -/
def fireTimer (st : TFState) : TFState :=
  if st.pendingTimers = 0 then st
  else updateGoal { st with pendingTimers := st.pendingTimers - 1 }

inductive TFEvent where
  | sub (frameID : String) (cb : Nat)
  | fire
deriving DecidableEq, Repr

def runTF (st : TFState) : List TFEvent → TFState
  | [] => st
  | TFEvent.sub f c :: rest => runTF (subscribe st f c).1 rest
  | TFEvent.fire :: rest => runTF (fireTimer st) rest

/-- Composite for the service-call scenario: callService followed by
dispatching one response. -/
def callThenRespond (name : String) (ros : RosConn) (hasCb hasFcb : Bool)
    (m : SvcResponse) : RosConn × List Invocation :=
  dispatchResponse (callService { name := name, isAdvertised := false } ros hasCb hasFcb).1 m

/-! Concrete inputs used to evaluate the code on specific scenarios. -/

def goalA : GoalMessage :=
  { goal_id := { id := "a-id", stamp := { secs := 1, nsecs := 0 } }, goal := "goalA" }

def goalB : GoalMessage :=
  { goal_id := { id := "b-id", stamp := { secs := 2, nsecs := 0 } }, goal := "goalB" }

def c2State : ServerState :=
  { currentGoal := some goalA, nextGoal := some goalB,
    status_list := [{ goal_id := goalA.goal_id, status := 1 }] }

def c2Msg : GoalID := { id := "", stamp := { secs := 0, nsecs := 5 } }

def c9State : ServerState :=
  { currentGoal := some { goal_id := { id := "g1", stamp := { secs := 5, nsecs := 0 } },
                          goal := "payload" },
    nextGoal := none,
    status_list := [{ goal_id := { id := "g1", stamp := { secs := 5, nsecs := 0 } },
                      status := 1 }] }

def c9Msg : GoalID := { id := "g1", stamp := { secs := 6, nsecs := 0 } }

def c5State : TFState :=
  { frameInfos := [("foo", { transform := none, cbs := [7] })],
    republisherUpdateRequested := false, pendingTimers := 0, requests := [] }

def c10State : TFState :=
  { frameInfos := [("foo", { transform := some 42, cbs := [7] })],
    republisherUpdateRequested := false, pendingTimers := 0, requests := [] }

def c4Resp : SvcResponse :=
  { id := serviceCallIdOf "add_two_ints" 1, result := some false, values := "err" }

def c4Ros : RosConn := { idCounter := 0, listeners := [] }

/-! Theorems. -/

theorem isEarlier_iff_numeric (s1 n1 s2 n2 : Nat)
    (h1 : n1 < 1000000000) (h2 : n2 < 1000000000) :
    isEarlier ⟨s1, n1⟩ ⟨s2, n2⟩ = true ↔
      s1 * 1000000000 + n1 < s2 * 1000000000 + n2 := by
  unfold isEarlier
  dsimp only
  split_ifs with hgt hlt hn <;> simp <;> omega

/-- C6: on timestamps with nsecs below 1e9, isEarlier coincides with the
numeric order s*1e9+n and is a strict total order: irreflexive, transitive,
and total up to equality of components. -/
theorem c6_isEarlier_strict_total_order (s1 n1 s2 n2 s3 n3 : Nat)
    (h1 : n1 < 10 ^ 9) (h2 : n2 < 10 ^ 9) (h3 : n3 < 10 ^ 9) :
    (isEarlier ⟨s1, n1⟩ ⟨s2, n2⟩ = true ↔
        s1 * 10 ^ 9 + n1 < s2 * 10 ^ 9 + n2) ∧
    isEarlier ⟨s1, n1⟩ ⟨s1, n1⟩ = false ∧
    (isEarlier ⟨s1, n1⟩ ⟨s2, n2⟩ = true → isEarlier ⟨s2, n2⟩ ⟨s3, n3⟩ = true →
        isEarlier ⟨s1, n1⟩ ⟨s3, n3⟩ = true) ∧
    (isEarlier ⟨s1, n1⟩ ⟨s2, n2⟩ = true ∨ isEarlier ⟨s2, n2⟩ ⟨s1, n1⟩ = true ∨
        (s1 = s2 ∧ n1 = n2)) := by
  have hpow : (10 : Nat) ^ 9 = 1000000000 := by norm_num
  rw [hpow] at h1 h2 h3 ⊢
  refine ⟨isEarlier_iff_numeric s1 n1 s2 n2 h1 h2, ?_, ?_, ?_⟩
  · unfold isEarlier
    simp
  · intro hab hbc
    rw [isEarlier_iff_numeric s1 n1 s2 n2 h1 h2] at hab
    rw [isEarlier_iff_numeric s2 n2 s3 n3 h2 h3] at hbc
    rw [isEarlier_iff_numeric s1 n1 s3 n3 h1 h3]
    omega
  · rcases Nat.lt_trichotomy (s1 * 1000000000 + n1) (s2 * 1000000000 + n2) with
      hlt | heq | hgt
    · exact Or.inl ((isEarlier_iff_numeric s1 n1 s2 n2 h1 h2).2 hlt)
    · refine Or.inr (Or.inr ⟨?_, ?_⟩) <;> omega
    · exact Or.inr (Or.inl ((isEarlier_iff_numeric s2 n2 s1 n1 h2 h1).2 hgt))

theorem c6_witness :
    (isEarlier ⟨1, 2⟩ ⟨1, 3⟩ = true ↔ 1 * 10 ^ 9 + 2 < 1 * 10 ^ 9 + 3) ∧
    isEarlier ⟨1, 2⟩ ⟨1, 2⟩ = false ∧
    (isEarlier ⟨1, 2⟩ ⟨1, 3⟩ = true → isEarlier ⟨1, 3⟩ ⟨2, 4⟩ = true →
        isEarlier ⟨1, 2⟩ ⟨2, 4⟩ = true) ∧
    (isEarlier ⟨1, 2⟩ ⟨1, 3⟩ = true ∨ isEarlier ⟨1, 3⟩ ⟨1, 2⟩ = true ∨
        ((1 : Nat) = 1 ∧ (2 : Nat) = 3)) :=
  c6_isEarlier_strict_total_order 1 2 1 3 2 4 (by norm_num) (by norm_num)
    (by norm_num)

/-- C9: processing the single cancel message c9Msg — whose id equals the
current goal id, whose stamp is strictly later than the current goal creation
stamp, and which does not match the cancel-all pattern — emits the cancel
event twice. -/
theorem c9_double_cancel_emit :
    cancelAllCond c9Msg = false ∧
    idMatches c9State.currentGoal c9Msg.id = true ∧
    stampEarlier c9State.currentGoal c9Msg.stamp = true ∧
    (handleCancel c9State c9Msg).2 = [SAEvent.cancelEvent, SAEvent.cancelEvent] := by
  decide

/-- C2: evaluation of the cancel handler at the failing input c2Msg, whose id
is empty and whose stamp has secs = 0 but nsecs = 5 ≠ 0. The source runs the
cancel-all branch anyway — it clears nextGoal and emits one cancel event —
because line 113 tests stamp.secs twice and never stamp.nsecs. -/
theorem c2_cancel_all_ignores_nsecs :
    c2Msg.id = "" ∧ c2Msg.stamp.secs = 0 ∧ c2Msg.stamp.nsecs = 5 ∧
    cancelAllCond c2Msg = true ∧
    handleCancel c2State c2Msg =
      ({ c2State with nextGoal := none }, [SAEvent.cancelEvent]) := by
  decide

/-- C1 counterexample: in the preemption scenario with goals goalA, goalB the
final status list is empty — it does not contain the goalB id, contrary to
the claim that it contains only that id. -/
theorem c1_counterexample :
    Option.map (fun p => p.1.status_list.map fun s => s.goal_id.id)
        (preemptScenario goalA goalB "res") = some [] ∧
    ¬ Option.map (fun p => p.1.status_list.map fun s => s.goal_id.id)
        (preemptScenario goalA goalB "res") = some [goalB.goal_id.id] := by
  decide

/-- C1 amended: after goal A is accepted and goal B is staged (raising a
cancel signal), setSucceeded publishes the status+result pair for A with
status code 3, emits exactly one goal event for B, makes B the current goal
with nextGoal cleared in the same step, and leaves the status list empty. -/
theorem c1_preemption_amended (A B : GoalMessage) (res : String) :
    (handleGoal initialServer A).2 = [SAEvent.goalEvent A.goal] ∧
    (handleGoal initialServer A).1.currentGoal = some A ∧
    (handleGoal (handleGoal initialServer A).1 B).2 = [SAEvent.cancelEvent] ∧
    (handleGoal (handleGoal initialServer A).1 B).1.nextGoal = some B ∧
    preemptScenario A B res =
      some ({ currentGoal := some B, nextGoal := none, status_list := [] },
            [SAEvent.goalEvent B.goal],
            { status := { goal_id := A.goal_id, status := 3 }, result := res }) :=
  ⟨rfl, rfl, rfl, rfl, rfl⟩

theorem runConn_append (e1 e2 : List ConnEvent) (st : ConnState) :
    runConn st (e1 ++ e2) = runConn (runConn st e1) e2 := by
  induction e1 generalizing st with
  | nil => simp [runConn]
  | cons e rest ih =>
    cases e <;> simp [runConn, ih]

theorem runConn_calls_disconnected (ms : List String) (st : ConnState)
    (h : st.isConnected = false) :
    runConn st (ms.map ConnEvent.call) =
      { st with onceConnectionQueue := st.onceConnectionQueue ++ ms } := by
  induction ms generalizing st with
  | nil => simp [runConn]
  | cons m rest ih =>
    simp only [List.map_cons, runConn, callOnConnection, h, if_false]
    rw [ih _ (by simp [h])]
    simp

theorem runConn_calls_connected (ms : List String) (st : ConnState)
    (h : st.isConnected = true) :
    runConn st (ms.map ConnEvent.call) = { st with wire := st.wire ++ ms } := by
  induction ms generalizing st with
  | nil => simp [runConn]
  | cons m rest ih =>
    simp only [List.map_cons, runConn, callOnConnection, h, if_true]
    rw [ih _ (by simp [h])]
    simp

/-- C3: for any messages passed to callOnConnection before the connection
event and any passed after it, each queued message is sent exactly once on the
transition to Connected, the queue is emptied, and the wire order equals the
call order across both paths. -/
theorem c3_fifo_wire_order (pre post : List String) :
    runConn initialConn
        (pre.map ConnEvent.call ++ ConnEvent.transportOpen :: post.map ConnEvent.call) =
      { isConnected := true, onceConnectionQueue := [], wire := pre ++ post } := by
  rw [runConn_append]
  rw [runConn_calls_disconnected pre initialConn rfl]
  show runConn (runConn _ [ConnEvent.transportOpen]) (post.map ConnEvent.call) = _
  rw [runConn_calls_connected post _ rfl]
  simp [runConn, handleTransportOpen, initialConn]

/-- C8: when the Service instance is advertised as a handler, callService is
a no-op: the connection state (listener registry and id counter) is unchanged
and no operation is sent. -/
theorem c8_callService_noop_when_advertised (name : String) (ros : RosConn)
    (hasCb hasFcb : Bool) :
    callService { name := name, isAdvertised := true } ros hasCb hasFcb =
      (ros, []) := by
  simp [callService]

theorem respRoute_eq (hasCb hasFcb : Bool) (m : SvcResponse) :
    respRoute { hasCallback := hasCb, hasFailedCallback := hasFcb } m =
      (if m.result = some false then
        (if hasFcb = true then [Invocation.failure m.values] else [])
      else
        (if hasCb = true then [Invocation.success m.values] else [])) := by
  simp [respRoute]

theorem filter_key_eq_nil (k : String) (l : List (String × SvcHandler))
    (h : ∀ p ∈ l, ¬ p.1 = k) : l.filter (fun p => p.1 = k) = [] := by
  induction l with
  | nil => rfl
  | cons p rest ih =>
    have hp : ¬ p.1 = k := h p (List.mem_cons_self p rest)
    simp only [List.filter_cons, decide_eq_true_eq]
    rw [if_neg hp]
    exact ih fun q hq => h q (List.mem_cons_of_mem p hq)

theorem filter_filter_not_eq_nil (k : String) (l : List (String × SvcHandler)) :
    (l.filter (fun p => ¬ p.1 = k)).filter (fun p => p.1 = k) = [] := by
  apply filter_key_eq_nil
  intro p hp
  have hmem := List.mem_filter.1 hp
  simpa using hmem.2

/-- C4: a callService invocation with a success callback (and optionally a
failure callback) registers a one-shot listener under a fresh correlation id;
the first response carrying that id fires it exactly once — routing to the
failure callback alone when the result flag is false (to nothing when no
failure callback was supplied), else to the success callback alone with the
response values — and a second response carrying the same id fires nothing. -/
theorem c4_one_shot_exclusive_routing (name : String) (ros : RosConn)
    (hasFcb : Bool) (m : SvcResponse)
    (hfresh : ∀ p ∈ ros.listeners, ¬ p.1 = serviceCallIdOf name (ros.idCounter + 1))
    (hm : m.id = serviceCallIdOf name (ros.idCounter + 1)) :
    (callThenRespond name ros true hasFcb m).2 =
      (if m.result = some false then
        (if hasFcb = true then [Invocation.failure m.values] else [])
      else [Invocation.success m.values]) ∧
    (dispatchResponse (callThenRespond name ros true hasFcb m).1 m).2 = [] := by
  have hnil : ros.listeners.filter (fun p => p.1 = m.id) = [] := by
    rw [hm]
    exact filter_key_eq_nil _ _ hfresh
  have hcall : (callService { name := name, isAdvertised := false } ros true hasFcb).1 =
      { idCounter := ros.idCounter + 1,
        listeners := ros.listeners ++
          [(serviceCallIdOf name (ros.idCounter + 1),
            { hasCallback := true, hasFailedCallback := hasFcb })] } := by
    simp [callService]
  constructor
  · simp only [callThenRespond, dispatchResponse]
    rw [hcall]
    simp only []
    rw [List.filter_append, hnil]
    simp [hm, respRoute]
  · simp only [callThenRespond, dispatchResponse]
    rw [hcall]
    simp only []
    rw [filter_filter_not_eq_nil]
    simp

theorem c4_witness :
    (callThenRespond "add_two_ints" c4Ros true true c4Resp).2 =
      (if c4Resp.result = some false then
        (if (true : Bool) = true then [Invocation.failure c4Resp.values] else [])
      else [Invocation.success c4Resp.values]) ∧
    (dispatchResponse (callThenRespond "add_two_ints" c4Ros true true c4Resp).1
        c4Resp).2 = [] :=
  c4_one_shot_exclusive_routing "add_two_ints" c4Ros true c4Resp
    (by intro p hp; simp [c4Ros] at hp) rfl

/-- C5: evaluation of unsubscribe at a state where frame foo has exactly one
registered callback, removing that callback. The trailing delete is never
reached: the source raises a ReferenceError (cbs is out of scope after the
for loop), so the frameInfos entry survives with an empty callback list,
violating the entry-exists-iff-subscribed invariant. -/
theorem c5_unsubscribe_raises_reference_error :
    unsubscribe c5State "foo" (some 7) =
      ({ frameInfos := [("foo", { transform := none, cbs := [] })],
         republisherUpdateRequested := false, pendingTimers := 0, requests := [] },
       some JsError.referenceError) ∧
    ¬ lookupFrame "foo" (unsubscribe c5State "foo" (some 7)).1.frameInfos = none := by
  decide

theorem lookupFrame_setFrame (k : String) (v : FrameInfo)
    (fs : List (String × FrameInfo)) :
    lookupFrame k (setFrame k v fs) = some v := by
  induction fs with
  | nil => simp [setFrame, lookupFrame]
  | cons p rest ih =>
    obtain ⟨k2, v2⟩ := p
    by_cases h : k2 = k
    · simp [setFrame, lookupFrame, h]
    · simp [setFrame, lookupFrame, h, ih]

/-- C10: subscribing to a frame whose entry holds a cached transform invokes
the new callback immediately with that transform, appends it to the frame
subscriber list, and schedules no re-aggregation: timers, the update-requested
flag and the emitted request list are unchanged. -/
theorem c10_cached_transform_immediate (st : TFState) (f : String) (cb : Nat)
    (info : FrameInfo) (t : Nat)
    (hlook : lookupFrame (stripSlash f) st.frameInfos = some info)
    (ht : info.transform = some t) :
    (subscribe st f cb).2 = [(cb, t)] ∧
    (subscribe st f cb).1.pendingTimers = st.pendingTimers ∧
    (subscribe st f cb).1.republisherUpdateRequested =
      st.republisherUpdateRequested ∧
    (subscribe st f cb).1.requests = st.requests ∧
    lookupFrame (stripSlash f) (subscribe st f cb).1.frameInfos =
      some { info with cbs := info.cbs ++ [cb] } := by
  have hpush : pushCb st (stripSlash f) cb =
      { st with frameInfos := setFrame (stripSlash f) { info with cbs := info.cbs ++ [cb] } st.frameInfos } := by
    unfold pushCb
    rw [hlook]
  have hsub : subscribe st f cb = (pushCb st (stripSlash f) cb, [(cb, t)]) := by
    unfold subscribe
    simp only [hlook, ht]
  rw [hsub, hpush]
  exact ⟨rfl, rfl, rfl, rfl, lookupFrame_setFrame _ _ _⟩

theorem c10_witness :
    (subscribe c10State "foo" 9).2 = [(9, 42)] ∧
    (subscribe c10State "foo" 9).1.pendingTimers = c10State.pendingTimers ∧
    (subscribe c10State "foo" 9).1.republisherUpdateRequested =
      c10State.republisherUpdateRequested ∧
    (subscribe c10State "foo" 9).1.requests = c10State.requests ∧
    lookupFrame (stripSlash "foo") (subscribe c10State "foo" 9).1.frameInfos =
      some { transform := some 42, cbs := [7] ++ [9] } :=
  c10_cached_transform_immediate c10State "foo" 9
    { transform := some 42, cbs := [7] } 42 (by decide) rfl

/-- C7: subscribing to three distinct unwatched frames inside one debounce
window schedules exactly one updateGoal timer and sends nothing yet; when the
timer fires, exactly one upstream request goes out naming exactly those three
frames; a fourth subscription to a new frame after the window, followed by its
timer, produces exactly one further request naming all four frames. -/
theorem c7_debounce_two_requests (f1 f2 f3 f4 : String) (k1 k2 k3 k4 : Nat)
    (g1 : stripSlash f1 = f1) (g2 : stripSlash f2 = f2)
    (g3 : stripSlash f3 = f3) (g4 : stripSlash f4 = f4)
    (h12 : ¬ f1 = f2) (h13 : ¬ f1 = f3) (h14 : ¬ f1 = f4)
    (h23 : ¬ f2 = f3) (h24 : ¬ f2 = f4) (h34 : ¬ f3 = f4) :
    (runTF initialTF
        [TFEvent.sub f1 k1, TFEvent.sub f2 k2, TFEvent.sub f3 k3]).requests = [] ∧
    (runTF initialTF
        [TFEvent.sub f1 k1, TFEvent.sub f2 k2, TFEvent.sub f3 k3]).pendingTimers = 1 ∧
    (runTF initialTF
        [TFEvent.sub f1 k1, TFEvent.sub f2 k2, TFEvent.sub f3 k3,
         TFEvent.fire]).requests = [[f1, f2, f3]] ∧
    (runTF initialTF
        [TFEvent.sub f1 k1, TFEvent.sub f2 k2, TFEvent.sub f3 k3, TFEvent.fire,
         TFEvent.sub f4 k4, TFEvent.fire]).requests =
      [[f1, f2, f3], [f1, f2, f3, f4]] := by
  have s1 : (subscribe initialTF f1 k1).1 =
      { frameInfos := [(f1, { transform := none, cbs := [k1] })],
        republisherUpdateRequested := true, pendingTimers := 1,
        requests := [] } := by
    simp [subscribe, initialTF, pushCb, lookupFrame, setFrame, g1]
  have s2 : (subscribe
      { frameInfos := [(f1, { transform := none, cbs := [k1] })],
        republisherUpdateRequested := true, pendingTimers := 1,
        requests := [] } f2 k2).1 =
      { frameInfos := [(f1, { transform := none, cbs := [k1] }),
                       (f2, { transform := none, cbs := [k2] })],
        republisherUpdateRequested := true, pendingTimers := 1,
        requests := [] } := by
    simp [subscribe, pushCb, lookupFrame, setFrame, g2, h12]
  have s3 : (subscribe
      { frameInfos := [(f1, { transform := none, cbs := [k1] }),
                       (f2, { transform := none, cbs := [k2] })],
        republisherUpdateRequested := true, pendingTimers := 1,
        requests := [] } f3 k3).1 =
      { frameInfos := [(f1, { transform := none, cbs := [k1] }),
                       (f2, { transform := none, cbs := [k2] }),
                       (f3, { transform := none, cbs := [k3] })],
        republisherUpdateRequested := true, pendingTimers := 1,
        requests := [] } := by
    simp [subscribe, pushCb, lookupFrame, setFrame, g3, h13, h23]
  have sf1 : fireTimer
      { frameInfos := [(f1, { transform := none, cbs := [k1] }),
                       (f2, { transform := none, cbs := [k2] }),
                       (f3, { transform := none, cbs := [k3] })],
        republisherUpdateRequested := true, pendingTimers := 1,
        requests := [] } =
      { frameInfos := [(f1, { transform := none, cbs := [k1] }),
                       (f2, { transform := none, cbs := [k2] }),
                       (f3, { transform := none, cbs := [k3] })],
        republisherUpdateRequested := false, pendingTimers := 0,
        requests := [[f1, f2, f3]] } := by
    simp [fireTimer, updateGoal, frameKeys]
  have s4 : (subscribe
      { frameInfos := [(f1, { transform := none, cbs := [k1] }),
                       (f2, { transform := none, cbs := [k2] }),
                       (f3, { transform := none, cbs := [k3] })],
        republisherUpdateRequested := false, pendingTimers := 0,
        requests := [[f1, f2, f3]] } f4 k4).1 =
      { frameInfos := [(f1, { transform := none, cbs := [k1] }),
                       (f2, { transform := none, cbs := [k2] }),
                       (f3, { transform := none, cbs := [k3] }),
                       (f4, { transform := none, cbs := [k4] })],
        republisherUpdateRequested := true, pendingTimers := 1,
        requests := [[f1, f2, f3]] } := by
    simp [subscribe, pushCb, lookupFrame, setFrame, g4, h14, h24, h34]
  have sf2 : fireTimer
      { frameInfos := [(f1, { transform := none, cbs := [k1] }),
                       (f2, { transform := none, cbs := [k2] }),
                       (f3, { transform := none, cbs := [k3] }),
                       (f4, { transform := none, cbs := [k4] })],
        republisherUpdateRequested := true, pendingTimers := 1,
        requests := [[f1, f2, f3]] } =
      { frameInfos := [(f1, { transform := none, cbs := [k1] }),
                       (f2, { transform := none, cbs := [k2] }),
                       (f3, { transform := none, cbs := [k3] }),
                       (f4, { transform := none, cbs := [k4] })],
        republisherUpdateRequested := false, pendingTimers := 0,
        requests := [[f1, f2, f3], [f1, f2, f3, f4]] } := by
    simp [fireTimer, updateGoal, frameKeys]
  have r3 : runTF initialTF
      [TFEvent.sub f1 k1, TFEvent.sub f2 k2, TFEvent.sub f3 k3] =
      { frameInfos := [(f1, { transform := none, cbs := [k1] }),
                       (f2, { transform := none, cbs := [k2] }),
                       (f3, { transform := none, cbs := [k3] })],
        republisherUpdateRequested := true, pendingTimers := 1,
        requests := [] } := by
    simp only [runTF]
    rw [s1, s2, s3]
  have r4 : runTF initialTF
      [TFEvent.sub f1 k1, TFEvent.sub f2 k2, TFEvent.sub f3 k3, TFEvent.fire] =
      { frameInfos := [(f1, { transform := none, cbs := [k1] }),
                       (f2, { transform := none, cbs := [k2] }),
                       (f3, { transform := none, cbs := [k3] })],
        republisherUpdateRequested := false, pendingTimers := 0,
        requests := [[f1, f2, f3]] } := by
    simp only [runTF]
    rw [s1, s2, s3, sf1]
  have r6 : runTF initialTF
      [TFEvent.sub f1 k1, TFEvent.sub f2 k2, TFEvent.sub f3 k3, TFEvent.fire,
       TFEvent.sub f4 k4, TFEvent.fire] =
      { frameInfos := [(f1, { transform := none, cbs := [k1] }),
                       (f2, { transform := none, cbs := [k2] }),
                       (f3, { transform := none, cbs := [k3] }),
                       (f4, { transform := none, cbs := [k4] })],
        republisherUpdateRequested := false, pendingTimers := 0,
        requests := [[f1, f2, f3], [f1, f2, f3, f4]] } := by
    simp only [runTF]
    rw [s1, s2, s3, sf1, s4, sf2]
  exact ⟨by rw [r3], by rw [r3], by rw [r4], by rw [r6]⟩

theorem c7_witness :
    (runTF initialTF
        [TFEvent.sub "a" 1, TFEvent.sub "b" 2, TFEvent.sub "c" 3]).requests = [] ∧
    (runTF initialTF
        [TFEvent.sub "a" 1, TFEvent.sub "b" 2, TFEvent.sub "c" 3]).pendingTimers = 1 ∧
    (runTF initialTF
        [TFEvent.sub "a" 1, TFEvent.sub "b" 2, TFEvent.sub "c" 3,
         TFEvent.fire]).requests = [["a", "b", "c"]] ∧
    (runTF initialTF
        [TFEvent.sub "a" 1, TFEvent.sub "b" 2, TFEvent.sub "c" 3, TFEvent.fire,
         TFEvent.sub "d" 4, TFEvent.fire]).requests =
      [["a", "b", "c"], ["a", "b", "c", "d"]] :=
  c7_debounce_two_requests "a" "b" "c" "d" 1 2 3 4
    (by decide) (by decide) (by decide) (by decide)
    (by decide) (by decide) (by decide) (by decide) (by decide) (by decide)

theorem c1_witness :
    (handleGoal initialServer goalA).2 = [SAEvent.goalEvent goalA.goal] ∧
    (handleGoal initialServer goalA).1.currentGoal = some goalA ∧
    (handleGoal (handleGoal initialServer goalA).1 goalB).2 = [SAEvent.cancelEvent] ∧
    (handleGoal (handleGoal initialServer goalA).1 goalB).1.nextGoal = some goalB ∧
    preemptScenario goalA goalB "res" =
      some ({ currentGoal := some goalB, nextGoal := none, status_list := [] },
            [SAEvent.goalEvent goalB.goal],
            { status := { goal_id := goalA.goal_id, status := 3 }, result := "res" }) :=
  c1_preemption_amended goalA goalB "res"

theorem c3_witness :
    runConn initialConn
        ((["m1", "m2"]).map ConnEvent.call ++
          ConnEvent.transportOpen :: (["m3"]).map ConnEvent.call) =
      { isConnected := true, onceConnectionQueue := [],
        wire := ["m1", "m2"] ++ ["m3"] } :=
  c3_fifo_wire_order ["m1", "m2"] ["m3"]

theorem c8_witness :
    callService { name := "svc", isAdvertised := true }
        ({ idCounter := 0, listeners := [] } : RosConn) true false =
      (({ idCounter := 0, listeners := [] } : RosConn), []) :=
  c8_callService_noop_when_advertised "svc"
    ({ idCounter := 0, listeners := [] } : RosConn) true false

end Roslib
